import Mathlib

/-!
Verification of the KPI chatbot core: a shallow embedding of the query
translator (`server/services/gemini.ts`), the connection registry
(`DatabaseConfigService`), and the mock query/result pipeline
(`server/routes`), with theorems settling the specification claims.

Strings are modelled by Lean `String`; JavaScript objects keyed by string
are modelled by ordered association lists (insertion order preserved, as
in JS); external effects (the text-generation service, the connectivity
probe, schema introspection, the durable store) are modelled by explicit
outcome parameters threaded into the embedded functions.
-/

namespace KPIChatbot

/-! ## String utilities (JS `includes`, `toLowerCase`, `trim`) -/

/-- JS `\s`(approximately): blank characters recognised by `trim` and the
regexes in the source. -/
def isWS (c : Char) : Bool :=
  c == ' ' || c == '\t' || c == '\n' || c == '\r' || c == '\x0b' || c == '\x0c'

/-- Does the pattern match at the head of the list? -/
def matchesAt : List Char → List Char → Bool
  | [], _ => true
  | _ :: _, [] => false
  | p :: ps, c :: cs => p == c && matchesAt ps cs

/-- Does the pattern occur as a contiguous substring? (JS `String.includes`.) -/
def containsSub (pat : List Char) : List Char → Bool
  | [] => matchesAt pat []
  | s@(_ :: rest) => matchesAt pat s || containsSub pat rest

/-- JS `a.includes(b)`. -/
def strIncludes (s pat : String) : Bool :=
  containsSub pat.data s.data

/-- JS `toLowerCase` (ASCII; the source only compares ASCII keywords). -/
def lowerStr (s : String) : String :=
  String.mk (s.data.map Char.toLower)

/-- JS `String.trim`. -/
def trimWS (s : String) : String :=
  String.mk (((s.data.dropWhile isWS).reverse.dropWhile isWS).reverse)

/-! ## Schema data model (`shared` types: tables → columns → column info) -/

structure ColumnInfo where
  type : String
  nullable : Bool
  default : Option String
deriving DecidableEq, Repr

structure TableInfo where
  columns : List (String × ColumnInfo)
deriving DecidableEq, Repr

/-- `SchemaSnapshot`: mapping from table name to its columns, in the
insertion order of the JS object (`Object.keys` order). -/
structure Schema where
  tables : List (String × TableInfo)
deriving DecidableEq, Repr

/-! ## `generateFallbackSQL` (server/services/gemini.ts, tier 2) -/

/-- Embedding of `generateFallbackSQL(query, schema)`.  The source throws
`"No tables available for querying"` when the schema has no tables
(modelled as `Except.error`); otherwise it walks the fixed rule list and
finally emits the default first-table query. -/
def generateFallbackSQL (query : String) (schema : Schema) : Except String String :=
  let lowerQuery := lowerStr query
  match schema.tables with
  | [] => .error "No tables available for querying"
  | (firstTable, firstInfo) :: rest =>
    let tables := firstTable :: rest.map Prod.fst
    if strIncludes lowerQuery "total" && strIncludes lowerQuery "loan"
        && tables.contains "loans" then
      .ok "SELECT SUM(loan_amount) as total_loan_amount, COUNT(*) as total_loans FROM loans;"
    else if strIncludes lowerQuery "customer" && strIncludes lowerQuery "count"
        && tables.contains "customers" then
      .ok "SELECT COUNT(*) as customer_count FROM customers;"
    else if (strIncludes lowerQuery "payment" || strIncludes lowerQuery "transaction")
        && tables.contains "payments" then
      .ok "SELECT SUM(amount_paid) as total_payments, COUNT(*) as payment_count FROM payments;"
    else if strIncludes lowerQuery "loan" && strIncludes lowerQuery "type"
        && tables.contains "loans" then
      .ok "SELECT loan_type, COUNT(*) as loan_count, AVG(loan_amount) as avg_amount FROM loans GROUP BY loan_type ORDER BY loan_count DESC;"
    else
      let columns := firstInfo.columns.map Prod.fst
      let limitedColumns := String.intercalate ", " (columns.take 5)
      .ok ("SELECT " ++ limitedColumns ++ " FROM " ++ firstTable ++ " LIMIT 10;")

/-- Does some keyword rule of `generateFallbackSQL` fire on this
question/schema pair (keyword present and the rule's table available)? -/
def fallbackRuleMatches (query : String) (schema : Schema) : Bool :=
  let lowerQuery := lowerStr query
  let tables := schema.tables.map Prod.fst
  (strIncludes lowerQuery "total" && strIncludes lowerQuery "loan"
      && tables.contains "loans")
  || (strIncludes lowerQuery "customer" && strIncludes lowerQuery "count"
      && tables.contains "customers")
  || ((strIncludes lowerQuery "payment" || strIncludes lowerQuery "transaction")
      && tables.contains "payments")
  || (strIncludes lowerQuery "loan" && strIncludes lowerQuery "type"
      && tables.contains "loans")

/-! ## `generateSQLFromQuery` cleanup (tier 1) -/

/-- After skipping blanks, does a literal triple backtick follow?  Inside
the regex `` ```(?:sql)?\s*(SELECT[\s\S]*?)\s*``` `` the closing
`\s*` + fence can only match by skipping the maximal blank run, since a
backtick is not a blank. -/
def wsThenFence (s : List Char) : Bool :=
  matchesAt "```".data (s.dropWhile isWS)

/-- The lazy body `[\s\S]*?` before `\s*` and the closing fence: the
shortest prefix after which blanks and a closing fence follow.  Returns
the captured body characters. -/
def lazyBody : List Char → Option (List Char)
  | [] => if wsThenFence [] then some [] else none
  | s@(c :: rest) =>
    if wsThenFence s then some []
    else (lazyBody rest).map (c :: ·)

/-- Case-insensitive literal match at the head. -/
def matchesAtCI (pat : List Char) (s : List Char) : Bool :=
  matchesAt (pat.map Char.toLower) (s.map Char.toLower |>.take pat.length)

/-- After an opening fence: `\s*`, then `SELECT` (case-insensitively),
then the lazy body; the capture group is the matched `SELECT…` text. -/
def fenceAfterOpen (s : List Char) : Option (List Char) :=
  let t := s.dropWhile isWS
  if matchesAtCI "select".data t then
    (lazyBody (t.drop 6)).map (t.take 6 ++ ·)
  else none

/-- One match attempt right after `` ``` ``: the greedy optional `sql`
tag is tried first, with backtracking to the untagged alternative. -/
def fenceMatchAt (s : List Char) : Option (List Char) :=
  if matchesAtCI "sql".data s then
    match fenceAfterOpen (s.drop 3) with
    | some r => some r
    | none => fenceAfterOpen s
  else fenceAfterOpen s

/-- Leftmost match of `` ```(?:sql)?\s*(SELECT[\s\S]*?)\s*``` `` (flag `i`),
returning capture group 1. -/
def scanFence : List Char → Option (List Char)
  | [] => none
  | s@(_ :: rest) =>
    if matchesAt "```".data s then
      match fenceMatchAt (s.drop 3) with
      | some r => some r
      | none => scanFence rest
    else scanFence rest

/-- The replace of `/^[^S]*SELECT/i` by `SELECT`: with flag `i`, `[^S]*`
consumes the maximal run of non-`s`/`S` characters, and the match
succeeds exactly when `SELECT` (case-insensitively) follows it. -/
def replaceLeadingSelect (s : String) : String :=
  let rest := s.data.dropWhile (fun c => !(c == 'S' || c == 's'))
  if matchesAtCI "select".data rest then
    String.mk ("SELECT".data ++ rest.drop 6)
  else s

/-- The cleanup applied to the primary tier's raw text
(`gemini.ts` lines 195–209): trim, extract a fenced `SELECT…` block if a
triple backtick is present, then rewrite a leading-garbage `SELECT`. -/
def cleanSQLStep (rawSQL : String) : String :=
  let c0 := trimWS rawSQL
  let c1 :=
    if containsSub "```".data c0.data then
      match scanFence c0.data with
      | some cap => trimWS (String.mk cap)
      | none => c0
    else c0
  replaceLeadingSelect c1

/-- Embedding of `generateSQLFromQuery`.  The external service outcome is
explicit: `some text` models a response whose `.text || ""` is `text`;
`none` models a thrown error, in which case the catch block delegates to
`generateFallbackSQL` (whose own throw propagates). -/
def generateSQLFromQuery (response : Option String) (query : String)
    (schema : Schema) : Except String String :=
  match response with
  | some text => .ok (cleanSQLStep text)
  | none => generateFallbackSQL query schema

/-- Does a query string begin with the read-only keyword `SELECT`
(case-insensitively)? -/
def beginsWithSelect (s : String) : Bool :=
  matchesAtCI "select".data s.data

/-! ## Concrete fixtures (the mock schema installed by `/api/connect-db`) -/

def employeesTable : TableInfo :=
  ⟨[("id", ⟨"integer", false, none⟩),
    ("name", ⟨"varchar", false, none⟩),
    ("department", ⟨"varchar", true, none⟩),
    ("salary", ⟨"numeric", true, none⟩),
    ("hire_date", ⟨"date", true, none⟩)]⟩

def departmentsTable : TableInfo :=
  ⟨[("id", ⟨"integer", false, none⟩),
    ("name", ⟨"varchar", false, none⟩),
    ("budget", ⟨"numeric", true, none⟩)]⟩

def transactionsTable : TableInfo :=
  ⟨[("id", ⟨"integer", false, none⟩),
    ("amount", ⟨"numeric", false, none⟩),
    ("transaction_date", ⟨"timestamp", false, none⟩),
    ("account_id", ⟨"integer", false, none⟩),
    ("type", ⟨"varchar", false, none⟩)]⟩

def demoSchema : Schema :=
  ⟨[("employees", employeesTable),
    ("departments", departmentsTable),
    ("transactions", transactionsTable)]⟩

/-! ## KPI suggester (`generateKPISuggestions` / `getFallbackSuggestions`,
server/services/gemini.ts) -/

structure KPISuggestion where
  id : String
  name : String
  description : String
  query_template : String
  category : String
deriving DecidableEq, Repr

/-- The validator applied to each parsed suggestion (JS truthiness of the
five string fields; a missing field and an empty string are both falsy). -/
def validKPI (k : KPISuggestion) : Bool :=
  k.id != "" && k.name != "" && k.description != "" && k.query_template != ""
    && k.category != ""

def bankFallbackKPIs : List KPISuggestion :=
  [⟨"loan_approval_rate", "Loan Approval Rate",
    "Percentage of approved loans versus total applications",
    "What is the loan approval rate for the last 6 months?", "Operational"⟩,
   ⟨"account_growth", "Account Growth",
    "Rate of new account openings over time",
    "Show me the trend in new account openings", "Growth"⟩,
   ⟨"transaction_volume", "Transaction Volume",
    "Total transaction amounts processed",
    "What is the daily transaction volume?", "Operational"⟩]

def financeFallbackKPIs : List KPISuggestion :=
  [⟨"revenue_growth", "Revenue Growth",
    "Revenue growth rate over time periods",
    "Show me quarterly revenue growth", "Financial"⟩,
   ⟨"profit_margins", "Profit Margins",
    "Profit margin analysis by product or service",
    "What are the profit margins by product category?", "Financial"⟩,
   ⟨"client_portfolio_value", "Client Portfolio Value",
    "Total value of client portfolios",
    "Show me client portfolio value distributions", "Financial"⟩]

def ithrFallbackKPIs : List KPISuggestion :=
  [⟨"employee_turnover", "Employee Turnover Rate",
    "Employee turnover rate by department",
    "What is the employee turnover rate by department?", "HR Metrics"⟩,
   ⟨"hiring_metrics", "Hiring Efficiency",
    "Time to hire and hiring success rates",
    "Show me average time to hire by position level", "HR Metrics"⟩,
   ⟨"performance_ratings", "Performance Ratings",
    "Employee performance rating distributions",
    "What are the performance rating trends?", "Performance"⟩]

/-- `getFallbackSuggestions(sector)`: record lookup with
`|| fallbackSuggestions.finance` for unknown sectors. -/
def getFallbackSuggestions (sector : String) : List KPISuggestion :=
  if sector == "bank" then bankFallbackKPIs
  else if sector == "finance" then financeFallbackKPIs
  else if sector == "ithr" then ithrFallbackKPIs
  else financeFallbackKPIs

/-- Embedding of `generateKPISuggestions(schema, sector)`.  The external
service outcome is explicit: `some l` models a response whose text parsed
to the suggestion list `l`; `none` models a thrown error, an empty
response text, or unparsable JSON — all of which reach
`getFallbackSuggestions`.  The schema only feeds the prompt. -/
def generateKPISuggestions (outcome : Option (List KPISuggestion))
    (schema : Schema) (sector : String) : List KPISuggestion :=
  match outcome with
  | some suggestions => (suggestions.filter validKPI).take 8
  | none => getFallbackSuggestions sector

/-! ## Mock query pipeline (`generateMockSQL` / `generateMockResults`,
server/routes) -/

/-- A JSON scalar appearing in a result row. -/
inductive JVal where
  | str (v : String)
  | num (v : Int)
deriving DecidableEq, Repr

/-- A result row: an object, i.e. an ordered field list. -/
abbrev Row := List (String × JVal)

inductive ChartType where
  | bar
  | line
  | pie
deriving DecidableEq, Repr

structure ChartData where
  type : ChartType
  data : List Row
  xAxis : String
  yAxis : String
deriving DecidableEq, Repr

/-- The shaped result envelope returned by `/api/query-kpi`
(`execution_time` is an exact rational standing for the source's float
literal). -/
structure MockResults where
  table_data : List Row
  chart_data : ChartData
  columns : List String
  row_count : Nat
  execution_time : ℚ
deriving DecidableEq, Repr

/-- Embedding of `generateMockSQL(query, sector)` (the sector parameter is
unused in the source body). -/
def generateMockSQL (query : String) (sector : String) : String :=
  let lowerQuery := lowerStr query
  if strIncludes lowerQuery "salary" || strIncludes lowerQuery "employee" then
    "SELECT department, AVG(salary) as avg_salary, COUNT(*) as employee_count FROM employees GROUP BY department ORDER BY avg_salary DESC LIMIT 10;"
  else if strIncludes lowerQuery "transaction" || strIncludes lowerQuery "volume" then
    "SELECT DATE(transaction_date) as date, SUM(amount) as total_amount, COUNT(*) as transaction_count FROM transactions WHERE transaction_date >= NOW() - INTERVAL \x2730 days\x27 GROUP BY DATE(transaction_date) ORDER BY date;"
  else if strIncludes lowerQuery "department" || strIncludes lowerQuery "count" then
    "SELECT department, COUNT(*) as employee_count FROM employees GROUP BY department ORDER BY employee_count DESC;"
  else
    "SELECT * FROM employees LIMIT 10;"

/-- The envelope literal of the salary/employee branch of
`generateMockResults`. -/
def mockSalaryResults : MockResults :=
  { table_data :=
        [[("department", .str "Engineering"), ("avg_salary", .num 95000), ("employee_count", .num 25)],
         [("department", .str "Sales"), ("avg_salary", .num 75000), ("employee_count", .num 18)],
         [("department", .str "Marketing"), ("avg_salary", .num 68000), ("employee_count", .num 12)],
         [("department", .str "HR"), ("avg_salary", .num 62000), ("employee_count", .num 8)],
         [("department", .str "Finance"), ("avg_salary", .num 78000), ("employee_count", .num 10)]],
      chart_data :=
        { type := .bar,
          data :=
            [[("department", .str "Engineering"), ("avg_salary", .num 95000)],
             [("department", .str "Sales"), ("avg_salary", .num 75000)],
             [("department", .str "Marketing"), ("avg_salary", .num 68000)],
             [("department", .str "HR"), ("avg_salary", .num 62000)],
             [("department", .str "Finance"), ("avg_salary", .num 78000)]],
          xAxis := "department",
          yAxis := "avg_salary" },
      columns := ["department", "avg_salary", "employee_count"],
      row_count := 5,
      execution_time := 0.15 }

/-- The envelope literal of the transaction/volume branch of
`generateMockResults`. -/
def mockTransactionResults : MockResults :=
  { table_data :=
        [[("date", .str "2024-01-15"), ("total_amount", .num 125000), ("transaction_count", .num 45)],
         [("date", .str "2024-01-16"), ("total_amount", .num 138000), ("transaction_count", .num 52)],
         [("date", .str "2024-01-17"), ("total_amount", .num 142000), ("transaction_count", .num 48)],
         [("date", .str "2024-01-18"), ("total_amount", .num 159000), ("transaction_count", .num 61)],
         [("date", .str "2024-01-19"), ("total_amount", .num 134000), ("transaction_count", .num 43)]],
      chart_data :=
        { type := .line,
          data :=
            [[("date", .str "2024-01-15"), ("total_amount", .num 125000)],
             [("date", .str "2024-01-16"), ("total_amount", .num 138000)],
             [("date", .str "2024-01-17"), ("total_amount", .num 142000)],
             [("date", .str "2024-01-18"), ("total_amount", .num 159000)],
             [("date", .str "2024-01-19"), ("total_amount", .num 134000)]],
          xAxis := "date",
          yAxis := "total_amount" },
      columns := ["date", "total_amount", "transaction_count"],
      row_count := 5,
      execution_time := 0.12 }

/-- The envelope literal of the department/count branch of
`generateMockResults`. -/
def mockDepartmentResults : MockResults :=
  { table_data :=
        [[("department", .str "Engineering"), ("employee_count", .num 25)],
         [("department", .str "Sales"), ("employee_count", .num 18)],
         [("department", .str "Marketing"), ("employee_count", .num 12)],
         [("department", .str "Finance"), ("employee_count", .num 10)],
         [("department", .str "HR"), ("employee_count", .num 8)]],
      chart_data :=
        { type := .pie,
          data :=
            [[("department", .str "Engineering"), ("employee_count", .num 25)],
             [("department", .str "Sales"), ("employee_count", .num 18)],
             [("department", .str "Marketing"), ("employee_count", .num 12)],
             [("department", .str "Finance"), ("employee_count", .num 10)],
             [("department", .str "HR"), ("employee_count", .num 8)]],
          xAxis := "department",
          yAxis := "employee_count" },
      columns := ["department", "employee_count"],
      row_count := 5,
      execution_time := 0.08 }

/-- The envelope literal of the default branch of `generateMockResults`. -/
def mockDefaultResults : MockResults :=
  { table_data :=
        [[("id", .num 1), ("name", .str "John Doe"), ("department", .str "Engineering"), ("salary", .num 95000)],
         [("id", .num 2), ("name", .str "Jane Smith"), ("department", .str "Sales"), ("salary", .num 75000)],
         [("id", .num 3), ("name", .str "Bob Johnson"), ("department", .str "Marketing"), ("salary", .num 68000)]],
      chart_data :=
        { type := .bar,
          data :=
            [[("name", .str "John Doe"), ("salary", .num 95000)],
             [("name", .str "Jane Smith"), ("salary", .num 75000)],
             [("name", .str "Bob Johnson"), ("salary", .num 68000)]],
          xAxis := "name",
          yAxis := "salary" },
      columns := ["id", "name", "department", "salary"],
      row_count := 3,
      execution_time := 0.05 }

/-- Embedding of `generateMockResults(query, sector)` (the sector
parameter is unused in the source body); the four branch envelopes are
the named literals above. -/
def generateMockResults (query : String) (sector : String) : MockResults :=
  let lowerQuery := lowerStr query
  if strIncludes lowerQuery "salary" || strIncludes lowerQuery "employee" then
    mockSalaryResults
  else if strIncludes lowerQuery "transaction" || strIncludes lowerQuery "volume" then
    mockTransactionResults
  else if strIncludes lowerQuery "department" || strIncludes lowerQuery "count" then
    mockDepartmentResults
  else
    mockDefaultResults

/-! ## Connection registry (`DatabaseConfigService`)

The JS object `config.connections` is an ordered association list; the
durable store (`saveConfig`/`fs.writeFileSync`), the connectivity probe
(`testConnection`) and the introspector (`extractSchema`) are external
effects, modelled by explicit outcome parameters.  Each operation returns
the resulting in-memory state, whether a save was attempted, and the
JS-level outcome (a returned value or a propagated exception). -/

structure ConnParams where
  host : String
  port : Nat
  database : String
  username : String
  password : String
deriving DecidableEq, Repr

/-- One `DatabaseConnection` record of the registry file. -/
structure ConnRec where
  host : String
  port : Nat
  database : String
  username : String
  password : String
  type : String
  isActive : Bool
  schema : Option Schema
  lastConnected : Option String
deriving DecidableEq, Repr

/-- The `DatabaseConfig` held in memory by `DatabaseConfigService`. -/
structure Config where
  currentConnection : Option String
  connections : List (String × ConnRec)
deriving DecidableEq, Repr

/-- The record created by `loadConfig` when no config file exists. -/
def defaultConnRec : ConnRec :=
  { host := "localhost", port := 5432, database := "postgres",
    username := "postgres", password := "", type := "postgresql",
    isActive := false, schema := none, lastConnected := none }

/-- The initial in-memory state created by `loadConfig`. -/
def defaultConfig : Config :=
  { currentConnection := none, connections := [("default", defaultConnRec)] }

/-- JS `connections[id]` read. -/
def lookupConn (l : List (String × ConnRec)) (k : String) : Option ConnRec :=
  (l.find? (fun p => p.1 == k)).map Prod.snd

/-- JS `connections[id] = v`: overwrite in place if the key exists,
otherwise append (JS object insertion order). -/
def setKey (l : List (String × ConnRec)) (k : String) (v : ConnRec) :
    List (String × ConnRec) :=
  if l.any (fun p => p.1 == k) then
    l.map (fun p => if p.1 == k then (k, v) else p)
  else l ++ [(k, v)]

/-- Mutate the record stored under an existing key (e.g.
`connections[id].isActive = true`). -/
def updateKey (l : List (String × ConnRec)) (k : String) (f : ConnRec → ConnRec) :
    List (String × ConnRec) :=
  l.map (fun p => if p.1 == k then (p.1, f p.2) else p)

/-- JS `delete connections[id]`. -/
def deleteKey (l : List (String × ConnRec)) (k : String) : List (String × ConnRec) :=
  l.filter (fun p => !(p.1 == k))

/-- `Object.keys(connections).forEach(key => { connections[key].isActive = false })`. -/
def deactivateAll (l : List (String × ConnRec)) : List (String × ConnRec) :=
  l.map (fun p => (p.1, { p.2 with isActive := false }))

/-- A JS method call's observable end: a returned value, or an exception
that escaped the method. -/
inductive OpOutcome (α : Type) where
  | ret (value : α)
  | threw (msg : String)
deriving DecidableEq, Repr

/-- The end state of one registry operation: the in-memory config, whether
`saveConfig` was invoked, and the JS outcome. -/
structure OpResult (α : Type) where
  config : Config
  saveAttempted : Bool
  outcome : OpOutcome α
deriving DecidableEq, Repr

/-- The `{ success, schema?, error? }` object returned by `addConnection`. -/
structure AddOutcome where
  success : Bool
  schema : Option Schema
  error : Option String
deriving DecidableEq, Repr

def saveFailMsg : String := "Could not save database configuration"

/-- The record inserted by a successful `addConnection`. -/
def newConnRec (params : ConnParams) (schema : Schema) (now : String) : ConnRec :=
  { host := params.host, port := params.port, database := params.database,
    username := params.username, password := params.password,
    type := "postgresql", isActive := true, schema := some schema,
    lastConnected := some now }

/-- Embedding of `addConnection(connectionId, connectionParams)`.
`testResult` is the connectivity probe's verdict; `extractResult` is
`some schema` for a successful introspection and `none` when
`extractSchema` threw; `saveOk` is the durable store's verdict.  The
catch-all turns every thrown error (introspection or save) into a
`success: false` return, after any mutations already applied. -/
def addConnection (cfg : Config) (connectionId : String) (params : ConnParams)
    (testResult : Bool) (extractResult : Option Schema) (now : String)
    (saveOk : Bool) : OpResult AddOutcome :=
  if !testResult then
    ⟨cfg, false,
      .ret ⟨false, none, some "Failed to connect to database with provided credentials"⟩⟩
  else
    match extractResult with
    | none => ⟨cfg, false, .ret ⟨false, none, some "Failed to extract database schema"⟩⟩
    | some schema =>
      let conns := setKey (deactivateAll cfg.connections) connectionId
        (newConnRec params schema now)
      let cfg1 : Config := ⟨some connectionId, conns⟩
      ⟨cfg1, true,
        if saveOk then .ret ⟨true, some schema, none⟩
        else .ret ⟨false, none, some saveFailMsg⟩⟩

/-- Embedding of `setActiveConnection(connectionId)`.  A save failure is
not caught here: the exception propagates with the mutation applied. -/
def setActiveConnection (cfg : Config) (connectionId : String) (saveOk : Bool) :
    OpResult Bool :=
  match lookupConn cfg.connections connectionId with
  | none => ⟨cfg, false, .ret false⟩
  | some _ =>
    let conns := updateKey (deactivateAll cfg.connections) connectionId
      (fun c => { c with isActive := true })
    let cfg1 : Config := ⟨some connectionId, conns⟩
    ⟨cfg1, true, if saveOk then .ret true else .threw saveFailMsg⟩

/-- Embedding of `removeConnection(connectionId)`.  The source line
`connections.default.isActive = true` presumes `"default"` exists (it
would throw otherwise); it is modelled as an update of the existing key,
which agrees with the source on every state where `"default"` is present
— an invariant of the registry.  A save failure propagates with the
mutation applied. -/
def removeConnection (cfg : Config) (connectionId : String) (saveOk : Bool) :
    OpResult Bool :=
  if (lookupConn cfg.connections connectionId).isNone || connectionId == "default" then
    ⟨cfg, false, .ret false⟩
  else
    let conns1 := deleteKey cfg.connections connectionId
    let cfg1 : Config :=
      if cfg.currentConnection == some connectionId then
        ⟨some "default", updateKey conns1 "default" (fun c => { c with isActive := true })⟩
      else ⟨cfg.currentConnection, conns1⟩
    ⟨cfg1, true, if saveOk then .ret true else .threw saveFailMsg⟩

/-- One registry operation with arbitrary arguments and external
outcomes, viewed as a transition on in-memory states. -/
inductive Step : Config → Config → Prop where
  | add (cfg : Config) (id : String) (params : ConnParams) (testResult : Bool)
      (extractResult : Option Schema) (now : String) (saveOk : Bool) :
      Step cfg (addConnection cfg id params testResult extractResult now saveOk).config
  | setActive (cfg : Config) (id : String) (saveOk : Bool) :
      Step cfg (setActiveConnection cfg id saveOk).config
  | remove (cfg : Config) (id : String) (saveOk : Bool) :
      Step cfg (removeConnection cfg id saveOk).config

/-- Registry states reachable from the initial `loadConfig` default by
registry operations. -/
inductive Reachable : Config → Prop where
  | init : Reachable defaultConfig
  | step {c c' : Config} : Reachable c → Step c c' → Reachable c'

def keysOf (l : List (String × ConnRec)) : List String := l.map Prod.fst

/-- The reserved `"default"` record exists. -/
def defaultPresent (cfg : Config) : Prop := "default" ∈ keysOf cfg.connections

/-- How many records carry `isActive = true`. -/
def activeCount (cfg : Config) : Nat :=
  (cfg.connections.filter (fun p => p.2.isActive)).length

def atMostOneActive (cfg : Config) : Prop := activeCount cfg ≤ 1

/-- The inductive invariant: keys are duplicate-free (JS objects cannot
repeat keys), `"default"` is present, and every active record is the one
named by `currentConnection`. -/
def Inv (cfg : Config) : Prop :=
  (keysOf cfg.connections).Nodup ∧ defaultPresent cfg ∧
    ∀ p ∈ cfg.connections, p.2.isActive = true → cfg.currentConnection = some p.1

/-- Sample connection parameters for concrete instantiations. -/
def demoParams : ConnParams :=
  ⟨"db.example.com", 5432, "kpi", "admin", "pw"⟩

/-- A sample well-formed KPI suggestion. -/
def demoKPI : KPISuggestion :=
  ⟨"active_customers", "Active Customers", "Number of active customer accounts",
   "How many customers are active?", "Customer"⟩

/-- A registry state holding a connection `"x"` besides `"default"`,
produced by a successful `addConnection`. -/
def demoConfigX : Config :=
  (addConnection defaultConfig "x" demoParams true (some demoSchema)
    "2024-01-01T00:00:00Z" true).config

/-! ## Registry map lemmas -/

lemma keysOf_deactivateAll (l : List (String × ConnRec)) :
    keysOf (deactivateAll l) = keysOf l := by
  unfold keysOf deactivateAll
  rw [List.map_map]
  exact List.map_congr_left fun p _ => rfl

lemma keysOf_updateKey (l : List (String × ConnRec)) (k : String) (f : ConnRec → ConnRec) :
    keysOf (updateKey l k f) = keysOf l := by
  unfold keysOf updateKey
  rw [List.map_map]
  refine List.map_congr_left fun p _ => ?_
  by_cases h : p.1 = k <;> simp [h]

lemma any_eq_false_of_not_mem_keysOf {l : List (String × ConnRec)} {k : String}
    (h : ¬ l.any (fun p => p.1 == k) = true) : k ∉ keysOf l := by
  intro hmem
  obtain ⟨p, hp, hpk⟩ := List.mem_map.mp hmem
  exact h (List.any_eq_true.mpr ⟨p, hp, by simp [hpk]⟩)

lemma keysOf_setKey (l : List (String × ConnRec)) (k : String) (v : ConnRec) :
    keysOf (setKey l k v) = keysOf l ∨ keysOf (setKey l k v) = keysOf l ++ [k] := by
  unfold setKey
  by_cases h : l.any (fun p => p.1 == k)
  · left
    rw [if_pos h]
    unfold keysOf
    rw [List.map_map]
    refine List.map_congr_left fun p _ => ?_
    by_cases hp : p.1 = k <;> simp [hp]
  · right
    rw [if_neg h]
    simp [keysOf]

lemma mem_keysOf_setKey {l : List (String × ConnRec)} {k' : String}
    (k : String) (v : ConnRec) (h : k' ∈ keysOf l) : k' ∈ keysOf (setKey l k v) := by
  rcases keysOf_setKey l k v with he | he <;> rw [he]
  · exact h
  · exact List.mem_append_left _ h

lemma nodup_keysOf_setKey {l : List (String × ConnRec)} {k : String} (v : ConnRec)
    (h : (keysOf l).Nodup) : (keysOf (setKey l k v)).Nodup := by
  unfold setKey
  by_cases hany : l.any (fun p => p.1 == k)
  · rw [if_pos hany]
    have he : keysOf (l.map (fun p => if p.1 == k then (k, v) else p)) = keysOf l := by
      unfold keysOf
      rw [List.map_map]
      refine List.map_congr_left fun p _ => ?_
      by_cases hp : p.1 = k <;> simp [hp]
    rw [he]
    exact h
  · rw [if_neg hany]
    have hk : k ∉ keysOf l := any_eq_false_of_not_mem_keysOf hany
    unfold keysOf
    rw [List.map_append]
    refine List.Nodup.append h (List.nodup_singleton k) ?_
    intro a ha hb
    rw [List.map_singleton, List.mem_singleton] at hb
    subst hb
    exact hk ha

lemma nodup_keysOf_deleteKey {l : List (String × ConnRec)} (k : String)
    (h : (keysOf l).Nodup) : (keysOf (deleteKey l k)).Nodup :=
  List.Nodup.sublist (List.Sublist.map Prod.fst (List.filter_sublist l)) h

lemma mem_keysOf_deleteKey {l : List (String × ConnRec)} {k' : String} (k : String)
    (h : k' ∈ keysOf l) (hne : k' ≠ k) : k' ∈ keysOf (deleteKey l k) := by
  obtain ⟨p, hp, hpk⟩ := List.mem_map.mp h
  refine List.mem_map.mpr ⟨p, ?_, hpk⟩
  refine List.mem_filter.mpr ⟨hp, ?_⟩
  simp [hpk, hne]

lemma mem_deleteKey {l : List (String × ConnRec)} {k : String} {p}
    (h : p ∈ deleteKey l k) : p ∈ l ∧ p.1 ≠ k := by
  have := List.mem_filter.mp h
  refine ⟨this.1, ?_⟩
  have hb := this.2
  simp only [Bool.not_eq_true'] at hb
  exact fun he => by simp [he] at hb

lemma mem_deactivateAll {l : List (String × ConnRec)} {p}
    (h : p ∈ deactivateAll l) : p.2.isActive = false := by
  obtain ⟨q, _, hfq⟩ := List.mem_map.mp h
  cases hfq
  rfl

lemma mem_setKey {l : List (String × ConnRec)} {k : String} {v : ConnRec} {p}
    (h : p ∈ setKey l k v) : p = (k, v) ∨ p ∈ l := by
  unfold setKey at h
  split at h
  · obtain ⟨q, hq, hfq⟩ := List.mem_map.mp h
    by_cases hk : q.1 == k
    · left
      rw [if_pos hk] at hfq
      exact hfq.symm
    · right
      rw [if_neg hk] at hfq
      exact hfq ▸ hq
  · rcases List.mem_append.mp h with h1 | h1
    · right; exact h1
    · left; exact List.mem_singleton.mp h1

lemma mem_updateKey {l : List (String × ConnRec)} {k : String} {f : ConnRec → ConnRec} {p}
    (h : p ∈ updateKey l k f) : p.1 = k ∨ p ∈ l := by
  obtain ⟨q, hq, hfq⟩ := List.mem_map.mp h
  by_cases hk : q.1 == k
  · left
    rw [if_pos hk] at hfq
    rw [← hfq]
    exact eq_of_beq hk
  · right
    rw [if_neg hk] at hfq
    exact hfq ▸ hq

lemma lookupConn_eq_none_iff (l : List (String × ConnRec)) (k : String) :
    lookupConn l k = none ↔ ∀ p ∈ l, p.1 ≠ k := by
  unfold lookupConn
  rw [Option.map_eq_none', List.find?_eq_none]
  constructor
  · intro h p hp he
    exact h p hp (by simp [he])
  · intro h p hp hb
    exact h p hp (eq_of_beq hb)

lemma lookupConn_deleteKey_self (l : List (String × ConnRec)) (k : String) :
    lookupConn (deleteKey l k) k = none := by
  rw [lookupConn_eq_none_iff]
  intro p hp
  exact (mem_deleteKey hp).2

lemma lookupConn_updateKey_of_none {l : List (String × ConnRec)} {k' : String}
    (k : String) (f : ConnRec → ConnRec) (h : lookupConn l k' = none) :
    lookupConn (updateKey l k f) k' = none := by
  rw [lookupConn_eq_none_iff] at h ⊢
  intro p hp
  obtain ⟨q, hq, hfq⟩ := List.mem_map.mp hp
  have hq1 : p.1 = q.1 := by
    by_cases hk : q.1 == k
    · rw [if_pos hk] at hfq; rw [← hfq]
    · rw [if_neg hk] at hfq; rw [← hfq]
  rw [hq1]
  exact h q hq

lemma lookupConn_map_set (l : List (String × ConnRec)) (k : String) (v : ConnRec) :
    lookupConn (l.map (fun p => if p.1 == k then (k, v) else p)) k
      = if l.any (fun p => p.1 == k) then some v else none := by
  induction l with
  | nil => simp [lookupConn]
  | cons a t ih =>
    by_cases hk : (a.1 == k) = true
    · unfold lookupConn
      rw [List.map_cons, if_pos hk, List.find?_cons_of_pos _ (by simp)]
      simp [List.any_cons, hk]
    · have hk' : (a.1 == k) = false := by simpa using hk
      unfold lookupConn at ih ⊢
      rw [List.map_cons, if_neg hk, List.find?_cons_of_neg _ (by simp [hk'])]
      rw [ih, List.any_cons, hk', Bool.false_or]

lemma lookupConn_append_singleton (l : List (String × ConnRec)) (k : String) (v : ConnRec)
    (h : ∀ p ∈ l, (p.1 == k) = false) : lookupConn (l ++ [(k, v)]) k = some v := by
  induction l with
  | nil => simp [lookupConn]
  | cons a t ih =>
    unfold lookupConn at ih ⊢
    rw [List.cons_append,
      List.find?_cons_of_neg _ (by simp [h a (List.mem_cons_self a t)])]
    exact ih fun p hp => h p (List.mem_cons_of_mem a hp)

lemma lookupConn_setKey_self (l : List (String × ConnRec)) (k : String) (v : ConnRec) :
    lookupConn (setKey l k v) k = some v := by
  unfold setKey
  by_cases hany : l.any (fun p => p.1 == k)
  · rw [if_pos hany, lookupConn_map_set, if_pos hany]
  · rw [if_neg hany]
    refine lookupConn_append_singleton l k v fun p hp => ?_
    cases hb : (p.1 == k) with
    | false => rfl
    | true => exact absurd (List.any_eq_true.mpr ⟨p, hp, hb⟩) hany

/-! ## Registry invariant preservation -/

lemma activeFilter_length_le_one (cur : Option String) (l : List (String × ConnRec))
    (hnd : (l.map Prod.fst).Nodup)
    (hp : ∀ p ∈ l, p.2.isActive = true → cur = some p.1) :
    (l.filter (fun p => p.2.isActive)).length ≤ 1 := by
  induction l with
  | nil => simp
  | cons a t ih =>
    rw [List.map_cons, List.nodup_cons] at hnd
    by_cases ha : a.2.isActive = true
    · have hcur := hp a (List.mem_cons_self a t) ha
      have ht : t.filter (fun p => p.2.isActive) = [] := by
        rw [List.filter_eq_nil_iff]
        intro p hpmem hact
        have h2 := hp p (List.mem_cons_of_mem a hpmem) hact
        rw [hcur] at h2
        have h3 : a.1 = p.1 := by injection h2
        exact hnd.1 (List.mem_map.mpr ⟨p, hpmem, h3.symm⟩)
      rw [List.filter_cons, if_pos (by simpa using ha), ht]
      simp
    · have ha' : a.2.isActive = false := by simpa using ha
      rw [List.filter_cons, if_neg (by simp [ha'])]
      exact ih hnd.2 fun p hpm h => hp p (List.mem_cons_of_mem a hpm) h

lemma inv_atMostOneActive {cfg : Config} (h : Inv cfg) : atMostOneActive cfg :=
  activeFilter_length_le_one cfg.currentConnection cfg.connections h.1 h.2.2

lemma inv_config_addConnection (cfg : Config) (id : String) (params : ConnParams)
    (tR : Bool) (eR : Option Schema) (now : String) (sOk : Bool) (h : Inv cfg) :
    Inv (addConnection cfg id params tR eR now sOk).config := by
  obtain ⟨hnd, hdef, hptr⟩ := h
  cases tR with
  | false => exact ⟨hnd, hdef, hptr⟩
  | true =>
    cases eR with
    | none => exact ⟨hnd, hdef, hptr⟩
    | some sch =>
      refine ⟨?_, ?_, ?_⟩
      · show (keysOf (setKey (deactivateAll cfg.connections) id
          (newConnRec params sch now))).Nodup
        exact nodup_keysOf_setKey _ (by rw [keysOf_deactivateAll]; exact hnd)
      · show "default" ∈ keysOf (setKey (deactivateAll cfg.connections) id
          (newConnRec params sch now))
        exact mem_keysOf_setKey _ _ (by rw [keysOf_deactivateAll]; exact hdef)
      · intro p hp hact
        rcases mem_setKey hp with he | hmem
        · subst he; rfl
        · exact absurd hact (by rw [mem_deactivateAll hmem]; simp)

lemma inv_config_setActiveConnection (cfg : Config) (id : String) (sOk : Bool)
    (h : Inv cfg) : Inv (setActiveConnection cfg id sOk).config := by
  obtain ⟨hnd, hdef, hptr⟩ := h
  unfold setActiveConnection
  split
  · exact ⟨hnd, hdef, hptr⟩
  · dsimp only
    refine ⟨?_, ?_, ?_⟩
    · show (keysOf (updateKey (deactivateAll cfg.connections) id
        (fun c => { c with isActive := true }))).Nodup
      rw [keysOf_updateKey, keysOf_deactivateAll]
      exact hnd
    · show "default" ∈ keysOf (updateKey (deactivateAll cfg.connections) id
        (fun c => { c with isActive := true }))
      rw [keysOf_updateKey, keysOf_deactivateAll]
      exact hdef
    · intro p hp hact
      replace hp : p ∈ updateKey (deactivateAll cfg.connections) id
        (fun c => { c with isActive := true }) := hp
      rcases mem_updateKey hp with he | hmem
      · show some id = some p.1
        rw [he]
      · exact absurd hact (by rw [mem_deactivateAll hmem]; simp)

lemma inv_config_removeConnection (cfg : Config) (id : String) (sOk : Bool)
    (h : Inv cfg) : Inv (removeConnection cfg id sOk).config := by
  obtain ⟨hnd, hdef, hptr⟩ := h
  unfold removeConnection
  split
  · exact ⟨hnd, hdef, hptr⟩
  · rename_i hguard
    have hne : id ≠ "default" := by
      intro he
      exact hguard (by simp [he])
    dsimp only
    by_cases hcur : (cfg.currentConnection == some id) = true
    · rw [if_pos hcur]
      refine ⟨?_, ?_, ?_⟩
      · show (keysOf (updateKey (deleteKey cfg.connections id) "default"
          (fun c => { c with isActive := true }))).Nodup
        rw [keysOf_updateKey]
        exact nodup_keysOf_deleteKey id hnd
      · show "default" ∈ keysOf (updateKey (deleteKey cfg.connections id) "default"
          (fun c => { c with isActive := true }))
        rw [keysOf_updateKey]
        exact mem_keysOf_deleteKey id hdef (Ne.symm hne)
      · intro p hp hact
        replace hp : p ∈ updateKey (deleteKey cfg.connections id) "default"
          (fun c => { c with isActive := true }) := hp
        rcases mem_updateKey hp with he | hmem
        · show some "default" = some p.1
          rw [he]
        · obtain ⟨hpl, hpne⟩ := mem_deleteKey hmem
          have h2 := hptr p hpl hact
          have hcur' : cfg.currentConnection = some id := eq_of_beq hcur
          rw [h2] at hcur'
          have h3 : p.1 = id := by injection hcur'
          exact absurd h3 hpne
    · rw [if_neg hcur]
      refine ⟨?_, ?_, ?_⟩
      · exact nodup_keysOf_deleteKey id hnd
      · exact mem_keysOf_deleteKey id hdef (Ne.symm hne)
      · intro p hp hact
        obtain ⟨hpl, _⟩ := mem_deleteKey hp
        exact hptr p hpl hact

lemma inv_step {c c' : Config} (h : Inv c) (st : Step c c') : Inv c' := by
  cases st with
  | add id params tR eR now sOk => exact inv_config_addConnection _ id params tR eR now sOk h
  | setActive id sOk => exact inv_config_setActiveConnection _ id sOk h
  | remove id sOk => exact inv_config_removeConnection _ id sOk h

lemma inv_reachable {cfg : Config} (h : Reachable cfg) : Inv cfg := by
  induction h with
  | init => exact ⟨by decide, by unfold defaultPresent; decide, by decide⟩
  | step _ st ih => exact inv_step ih st

/-! ## String lemmas for the mock pipeline -/

lemma matchesAt_map (f : Char → Char) (pat s : List Char)
    (h : matchesAt pat s = true) : matchesAt (pat.map f) (s.map f) = true := by
  induction pat generalizing s with
  | nil => rfl
  | cons p ps ih =>
    cases s with
    | nil => exact absurd h (by simp [matchesAt])
    | cons c cs =>
      unfold matchesAt at h
      rw [Bool.and_eq_true] at h
      have hpc : p = c := eq_of_beq h.1
      unfold matchesAt
      rw [List.map_cons, List.map_cons]
      rw [Bool.and_eq_true]
      exact ⟨by rw [hpc]; simp, ih cs h.2⟩

lemma containsSub_map (f : Char → Char) (pat s : List Char)
    (h : containsSub pat s = true) : containsSub (pat.map f) (s.map f) = true := by
  induction s with
  | nil => exact matchesAt_map f pat [] h
  | cons c cs ih =>
    unfold containsSub at h
    rw [Bool.or_eq_true] at h
    unfold containsSub
    rw [List.map_cons, Bool.or_eq_true]
    rcases h with h1 | h1
    · exact Or.inl (by
        have := matchesAt_map f pat (c :: cs) h1
        rwa [List.map_cons] at this)
    · exact Or.inr (ih h1)

lemma strIncludes_lowerStr (q pat : String) (hpat : pat.data.map Char.toLower = pat.data)
    (h : strIncludes q pat = true) : strIncludes (lowerStr q) pat = true := by
  unfold strIncludes lowerStr at *
  have h2 := containsSub_map Char.toLower pat.data q.data h
  rwa [hpat] at h2

/-- An if-chain whose branches are all `Except.ok` never produces an
error. -/
lemma ok_chain (b1 b2 b3 b4 : Bool) (s1 s2 s3 s4 s5 : String) :
    ∃ r, (if b1 then (Except.ok s1 : Except String String)
      else if b2 then .ok s2 else if b3 then .ok s3
      else if b4 then .ok s4 else .ok s5) = .ok r := by
  cases b1
  · cases b2
    · cases b3
      · cases b4
        · exact ⟨s5, rfl⟩
        · exact ⟨s4, rfl⟩
      · exact ⟨s3, rfl⟩
    · exact ⟨s2, rfl⟩
  · exact ⟨s1, rfl⟩

/-! ## Claim theorems -/

/-- C1 (failing behaviour of the code): for a primary-tier service
response whose text is `"DROP TABLE users;"`, the cleanup leaves the text
unchanged and `generateSQLFromQuery` returns it: the result does not
begin with `SELECT`, contains the data-mutating keyword `DROP`, and the
fallback tier is never consulted — contrary to the claim (and to the
source's own comment that the cleanup ensures the text starts with
`SELECT`). -/
theorem generateSQLFromQuery_mutating_passthrough :
    generateSQLFromQuery (some "DROP TABLE users;") "show all users" demoSchema
      = .ok "DROP TABLE users;" ∧
    beginsWithSelect "DROP TABLE users;" = false ∧
    strIncludes "DROP TABLE users;" "DROP" = true := by
  exact ⟨rfl, by decide, by decide⟩

/-- C2: every registry state reachable by the registry operations from
the initial configuration has at most one record with `isActive = true`
and contains the `"default"` record, and every single operation step from
such a state preserves both parts. -/
theorem registry_invariant_reachable (cfg : Config) (h : Reachable cfg) :
    (atMostOneActive cfg ∧ defaultPresent cfg) ∧
    ∀ cfg', Step cfg cfg' → atMostOneActive cfg' ∧ defaultPresent cfg' := by
  have hi := inv_reachable h
  refine ⟨⟨inv_atMostOneActive hi, hi.2.1⟩, fun cfg' st => ?_⟩
  have hi' := inv_step hi st
  exact ⟨inv_atMostOneActive hi', hi'.2.1⟩

theorem registry_invariant_reachable_witness :
    atMostOneActive defaultConfig ∧ defaultPresent defaultConfig :=
  (registry_invariant_reachable defaultConfig Reachable.init).1

/-- C3 counterexample: with a failing durable store, `addConnection`
reports an error yet the in-memory registry differs from the
pre-operation state — the mutation is not rolled back as claimed. -/
theorem addConnection_save_failure_not_rolled_back :
    (addConnection defaultConfig "x" demoParams true (some demoSchema)
        "2024-01-01T00:00:00Z" false).outcome
      = .ret ⟨false, none, some saveFailMsg⟩ ∧
    (addConnection defaultConfig "x" demoParams true (some demoSchema)
        "2024-01-01T00:00:00Z" false).config
      ≠ defaultConfig := by
  decide

/-- C3 amended: on persistence failure every mutating operation reports
the failure (`addConnection` through an error result, the other two by
letting the exception escape), but the in-memory registry keeps the
applied mutation instead of rolling back to the pre-operation state. -/
theorem registry_mutation_kept_on_save_failure (cfg : Config) (id : String)
    (params : ConnParams) (sch : Schema) (now : String) :
    ((addConnection cfg id params true (some sch) now false).outcome
        = .ret ⟨false, none, some saveFailMsg⟩ ∧
      lookupConn (addConnection cfg id params true (some sch) now false).config.connections id
        = some (newConnRec params sch now) ∧
      (addConnection cfg id params true (some sch) now false).config.currentConnection
        = some id) ∧
    (∀ c, lookupConn cfg.connections id = some c →
      (setActiveConnection cfg id false).outcome = .threw saveFailMsg ∧
      (setActiveConnection cfg id false).config.currentConnection = some id) ∧
    (lookupConn cfg.connections id ≠ none → id ≠ "default" →
      (removeConnection cfg id false).outcome = .threw saveFailMsg ∧
      lookupConn (removeConnection cfg id false).config.connections id = none) := by
  refine ⟨⟨rfl, lookupConn_setKey_self _ _ _, rfl⟩, ?_, ?_⟩
  · intro c hc
    unfold setActiveConnection
    rw [hc]
    exact ⟨rfl, rfl⟩
  · intro hid hdef
    unfold removeConnection
    have h1 : (lookupConn cfg.connections id).isNone = false := by
      cases hl : lookupConn cfg.connections id with
      | none => exact absurd hl hid
      | some c => rfl
    have h2 : (id == "default") = false := beq_eq_false_iff_ne.mpr hdef
    rw [h1, h2, Bool.false_or, if_neg (by decide : ¬ (false = true))]
    dsimp only
    by_cases hcur : (cfg.currentConnection == some id) = true
    · rw [if_pos hcur]
      refine ⟨rfl, ?_⟩
      show lookupConn (updateKey (deleteKey cfg.connections id) "default"
        (fun c => { c with isActive := true })) id = none
      exact lookupConn_updateKey_of_none _ _ (lookupConn_deleteKey_self _ _)
    · rw [if_neg hcur]
      refine ⟨rfl, ?_⟩
      show lookupConn (deleteKey cfg.connections id) id = none
      exact lookupConn_deleteKey_self _ _

theorem registry_mutation_kept_on_save_failure_witness :
    (setActiveConnection demoConfigX "x" false).outcome = .threw saveFailMsg ∧
    lookupConn (removeConnection demoConfigX "x" false).config.connections "x" = none := by
  have h := registry_mutation_kept_on_save_failure demoConfigX "x" demoParams demoSchema
    "2024-01-01T00:00:00Z"
  exact ⟨(h.2.1 (newConnRec demoParams demoSchema "2024-01-01T00:00:00Z") (by decide)).1,
    (h.2.2 (by decide) (by decide)).2⟩

/-- C4: when the connectivity test fails, `addConnection` returns the
connection error, leaves the registry exactly as it was, and never
reaches the durable store. -/
theorem addConnection_probe_failure_no_write (cfg : Config) (id : String)
    (params : ConnParams) (eR : Option Schema) (now : String) (sOk : Bool) :
    addConnection cfg id params false eR now sOk =
      ⟨cfg, false, .ret ⟨false, none,
        some "Failed to connect to database with provided credentials"⟩⟩ := rfl

/-- C5: the fallback translator errs exactly when the schema has zero
tables, and on a non-empty schema where no keyword rule fires it returns
the default query over the first table restricted to its first at most
five columns, with a LIMIT 10 row bound. -/
theorem generateFallbackSQL_empty_iff_and_default (q : String) (s : Schema) :
    ((∃ e, generateFallbackSQL q s = .error e) ↔ s.tables = []) ∧
    (∀ t rest, s.tables = t :: rest → fallbackRuleMatches q s = false →
      generateFallbackSQL q s =
        .ok ("SELECT " ++ String.intercalate ", " ((t.2.columns.map Prod.fst).take 5)
          ++ " FROM " ++ t.1 ++ " LIMIT 10;")) := by
  obtain ⟨tabs⟩ := s
  constructor
  · cases tabs with
    | nil => exact ⟨fun _ => rfl, fun _ => ⟨"No tables available for querying", rfl⟩⟩
    | cons t rest =>
      obtain ⟨tn, ti⟩ := t
      constructor
      · rintro ⟨e, he⟩
        exfalso
        unfold generateFallbackSQL at he
        dsimp only at he
        obtain ⟨r, hr⟩ := ok_chain _ _ _ _ _ _ _ _ _
        rw [hr] at he
        exact Except.noConfusion he
      · intro h
        exact absurd h (List.cons_ne_nil _ _)
  · intro t rest h hrule
    subst h
    obtain ⟨tn, ti⟩ := t
    unfold fallbackRuleMatches at hrule
    replace hrule :
        (strIncludes (lowerStr q) "total" && strIncludes (lowerStr q) "loan"
            && (tn :: rest.map Prod.fst).contains "loans"
          || strIncludes (lowerStr q) "customer" && strIncludes (lowerStr q) "count"
            && (tn :: rest.map Prod.fst).contains "customers"
          || (strIncludes (lowerStr q) "payment" || strIncludes (lowerStr q) "transaction")
            && (tn :: rest.map Prod.fst).contains "payments"
          || strIncludes (lowerStr q) "loan" && strIncludes (lowerStr q) "type"
            && (tn :: rest.map Prod.fst).contains "loans") = false := hrule
    rw [Bool.or_eq_false_iff] at hrule
    obtain ⟨hrule, h4⟩ := hrule
    rw [Bool.or_eq_false_iff] at hrule
    obtain ⟨hrule, h3⟩ := hrule
    rw [Bool.or_eq_false_iff] at hrule
    obtain ⟨h1, h2⟩ := hrule
    unfold generateFallbackSQL
    dsimp only
    rw [h1, h2, h3, h4]
    rfl

theorem generateFallbackSQL_default_witness :
    generateFallbackSQL "hello" demoSchema =
      .ok "SELECT id, name, department, salary, hire_date FROM employees LIMIT 10;" := by
  have h := (generateFallbackSQL_empty_iff_and_default "hello" demoSchema).2
    ("employees", employeesTable)
    [("departments", departmentsTable), ("transactions", transactionsTable)]
    rfl (by decide)
  rw [h]
  rfl

/-- C6: the fallback tier is a pure function of the question and the
schema: any two invocations on equal pairs yield identical query text —
no randomness or ambient state enters its embedding. -/
theorem generateFallbackSQL_deterministic (q1 q2 : String) (s1 s2 : Schema)
    (hq : q1 = q2) (hs : s1 = s2) :
    generateFallbackSQL q1 s1 = generateFallbackSQL q2 s2 := by
  rw [hq, hs]

theorem generateFallbackSQL_deterministic_witness :
    generateFallbackSQL "total loans" demoSchema
      = generateFallbackSQL "total loans" demoSchema :=
  generateFallbackSQL_deterministic "total loans" "total loans" demoSchema demoSchema
    rfl rfl

/-- C7 counterexample: on primary-tier failure the suggester returns the
fixed per-sector list of exactly 3 suggestions (not 6–8), and a primary
response repeating an id is passed through with duplicate ids (no
deduplication). -/
theorem generateKPISuggestions_contract_counterexample :
    (generateKPISuggestions none demoSchema "bank").length = 3 ∧
    ¬ 6 ≤ (generateKPISuggestions none demoSchema "bank").length ∧
    ¬ ((generateKPISuggestions (some [demoKPI, demoKPI]) demoSchema "bank").map
        KPISuggestion.id).Nodup := by
  decide

/-- C7 amended: on a parsed primary response the suggester returns the
suggestions that carry all five required fields, truncated to at most 8
(no lower bound, no dedup); on primary failure it returns the fixed
per-sector fallback list, which has exactly 3 entries, pairwise-distinct
ids and all required fields. -/
theorem generateKPISuggestions_amended (parsed : List KPISuggestion)
    (schema : Schema) (sector : String) :
    ((generateKPISuggestions (some parsed) schema sector).length ≤ 8 ∧
      ∀ k ∈ generateKPISuggestions (some parsed) schema sector, validKPI k = true) ∧
    ((generateKPISuggestions none schema sector).length = 3 ∧
      ((generateKPISuggestions none schema sector).map KPISuggestion.id).Nodup ∧
      ∀ k ∈ generateKPISuggestions none schema sector, validKPI k = true) := by
  constructor
  · constructor
    · exact List.length_take_le 8 _
    · intro k hk
      exact (List.mem_filter.mp (List.mem_of_mem_take hk)).2
  · unfold generateKPISuggestions getFallbackSuggestions
    dsimp only
    split
    · exact ⟨rfl, by decide, by decide⟩
    · split
      · exact ⟨rfl, by decide, by decide⟩
      · split
        · exact ⟨rfl, by decide, by decide⟩
        · exact ⟨rfl, by decide, by decide⟩

theorem generateKPISuggestions_amended_witness :
    validKPI demoKPI = true ∧
    (generateKPISuggestions none demoSchema "bank").length = 3 := by
  have h := generateKPISuggestions_amended [demoKPI] demoSchema "bank"
  exact ⟨h.1.2 demoKPI (by decide), h.2.1⟩

/-- C8: for every question the shaped envelope satisfies
`row_count = length table_data`, and every key of every chart series
point is among the envelope's columns. -/
theorem mockResults_envelope_invariant (q sector : String) :
    (generateMockResults q sector).row_count
      = (generateMockResults q sector).table_data.length ∧
    ∀ row ∈ (generateMockResults q sector).chart_data.data, ∀ kv ∈ row,
      kv.1 ∈ (generateMockResults q sector).columns := by
  unfold generateMockResults
  dsimp only
  split
  · exact ⟨by decide, by decide⟩
  · split
    · exact ⟨by decide, by decide⟩
    · split
      · exact ⟨by decide, by decide⟩
      · exact ⟨by decide, by decide⟩

theorem mockResults_envelope_invariant_witness :
    (generateMockResults "average salary" "bank").row_count
      = (generateMockResults "average salary" "bank").table_data.length ∧
    ("department" : String) ∈ (generateMockResults "average salary" "bank").columns := by
  have h := mockResults_envelope_invariant "average salary" "bank"
  refine ⟨h.1, ?_⟩
  exact h.2 [("department", .str "Engineering"), ("avg_salary", .num 95000)] (by decide)
    ("department", .str "Engineering") (by decide)

/-- C9: a question containing `"salary"`, asked against a schema with an
`employees` table, makes the fallback path emit the aggregate query
grouped by department over `employees`, and the matching envelope's chart
kind is bar. -/
theorem salary_question_bar_chart (q sector : String) (schema : Schema)
    (hemp : "employees" ∈ schema.tables.map Prod.fst)
    (hsal : strIncludes q "salary" = true) :
    generateMockSQL q sector =
      "SELECT department, AVG(salary) as avg_salary, COUNT(*) as employee_count FROM employees GROUP BY department ORDER BY avg_salary DESC LIMIT 10;" ∧
    strIncludes (generateMockSQL q sector) "GROUP BY department" = true ∧
    (generateMockResults q sector).chart_data.type = ChartType.bar := by
  have hlow : strIncludes (lowerStr q) "salary" = true :=
    strIncludes_lowerStr q "salary" (by decide) hsal
  have hsql : generateMockSQL q sector =
      "SELECT department, AVG(salary) as avg_salary, COUNT(*) as employee_count FROM employees GROUP BY department ORDER BY avg_salary DESC LIMIT 10;" := by
    unfold generateMockSQL
    dsimp only
    rw [hlow, Bool.true_or, if_pos rfl]
  refine ⟨hsql, ?_, ?_⟩
  · rw [hsql]
    decide
  · unfold generateMockResults
    dsimp only
    rw [hlow, Bool.true_or, if_pos rfl]
    rfl

theorem salary_question_bar_chart_witness :
    generateMockSQL "average salary by department" "ithr" =
      "SELECT department, AVG(salary) as avg_salary, COUNT(*) as employee_count FROM employees GROUP BY department ORDER BY avg_salary DESC LIMIT 10;" ∧
    strIncludes (generateMockSQL "average salary by department" "ithr")
      "GROUP BY department" = true ∧
    (generateMockResults "average salary by department" "ithr").chart_data.type
      = ChartType.bar :=
  salary_question_bar_chart "average salary by department" "ithr" demoSchema
    (by decide) (by decide)

/-- C10: removing an id absent from the registry returns `false` — the
same failure outcome as attempting to remove `"default"` — and leaves the
registry unchanged with no save attempted. -/
theorem removeConnection_absent_like_default (cfg : Config) (id : String)
    (sOk sOk' : Bool) (h : lookupConn cfg.connections id = none) :
    removeConnection cfg id sOk = ⟨cfg, false, .ret false⟩ ∧
    removeConnection cfg "default" sOk' = ⟨cfg, false, .ret false⟩ := by
  constructor
  · unfold removeConnection
    rw [h]
    rfl
  · unfold removeConnection
    simp

theorem removeConnection_absent_like_default_witness :
    removeConnection defaultConfig "ghost" true = ⟨defaultConfig, false, .ret false⟩ ∧
    removeConnection defaultConfig "default" false
      = ⟨defaultConfig, false, .ret false⟩ :=
  removeConnection_absent_like_default defaultConfig "ghost" true false (by decide)

end KPIChatbot
